import Mathlib

/-!
Shallow embedding of the user/auth/permission core of the Uber-2.0 backend
(src/src/api: models.py, routes.py, route/auth.py, route/account.py,
schemas/user_schema.py, schemas/rideExtra_schema.py), together with theorems
settling the spec claims about registration, login, password reset, signed
tokens, permission aggregation, account editing, monetary serialization and
vehicle assignment.
-/

namespace Uber2

/-- A row of the `users` table (models.py, class `User`). -/
structure User where
  id : Nat
  name : String
  email : String
  password : String
  role : String
  is_active : Bool
  marketing_allowed : Bool
  profile_photo_path : Option String
  vehicle_id : Option Nat
deriving DecidableEq, Repr

/-- Python whitespace stripped by `str.strip()` (ASCII range). -/
def isPySpace (c : Char) : Bool :=
  c == ' ' || c == '\t' || c == '\n' || c == '\r' || c == '\x0b' || c == '\x0c'

/-- Python `str.strip()` on a character list: drop whitespace from both ends. -/
def stripChars (cs : List Char) : List Char :=
  ((cs.dropWhile isPySpace).reverse.dropWhile isPySpace).reverse

/-- Model of Python `str.strip()` (ASCII whitespace). -/
def pyStrip (s : String) : String := String.mk (stripChars s.toList)

/-- Model of Python `str.lower()` (ASCII case folding, which covers the email
alphabets exercised here). -/
def pyLower (s : String) : String := String.mk (s.toList.map Char.toLower)

/-- Model of werkzeug's `generate_password_hash` (external collaborator):
an injective one-way tagging of the raw password. -/
def generate_password_hash (raw : String) : String := "pbkdf2:" ++ raw

/-- Model of werkzeug's `check_password_hash`: the stored hash matches the
raw password exactly when it is that password's hash. -/
def check_password_hash (stored raw : String) : Bool :=
  stored == generate_password_hash raw

/-- Model of `User.query.filter_by(email=e).first()`: the first user row whose
email column equals `e` exactly. -/
def filterByEmailFirst (store : List User) (e : String) : Option User :=
  store.find? (fun u => u.email == e)

/-- Model of `User.query.get(uid)`: lookup by primary key. -/
def queryGet (store : List User) (uid : Nat) : Option User :=
  store.find? (fun u => u.id == uid)

/-! ## Token service (itsdangerous `URLSafeTimedSerializer`, route/auth.py lines 80-111)

A signature is modelled symbolically as the data it authenticates (perfect
signing primitive): two signatures are equal exactly when secret key, salt,
payload and timestamp all agree. -/

/-- Symbolic signature over (secret key, purpose salt, payload uid, timestamp). -/
structure Sig where
  key : String
  salt : String
  uid : Nat
  ts : Nat
deriving DecidableEq, Repr

/-- A presented token: a claimed payload and timestamp plus a signature
(which may or may not match them). -/
structure Token where
  uid : Nat
  ts : Nat
  sig : Sig
deriving DecidableEq, Repr

def mkSig (key salt : String) (uid ts : Nat) : Sig := ⟨key, salt, uid, ts⟩

/-- Model of `URLSafeTimedSerializer(secret, salt).dumps(payload)` at time `ts`. -/
def dumps (key salt : String) (uid ts : Nat) : Token :=
  ⟨uid, ts, mkSig key salt uid ts⟩

/-- The two failure modes of `loads`: `SignatureExpired` and `BadSignature`. -/
inductive TokenError where
  | Expired
  | Invalid
deriving DecidableEq, Repr

/-- Model of `URLSafeTimedSerializer(secret, salt).loads(token, max_age)` at
time `now`: the signature is checked first (`BadSignature` on mismatch, which
covers tampering and wrong purpose salt), then the age against `max_age`
(`SignatureExpired`). -/
def loads (key salt : String) (maxAge : Nat) (tok : Token) (now : Nat) :
    Except TokenError Nat :=
  if tok.sig = mkSig key salt tok.uid tok.ts then
    if maxAge < now - tok.ts then .error .Expired else .ok tok.uid
  else .error .Invalid

/-- Purpose salt for email verification (route/auth.py line 84). -/
def EMAIL_VERIFY_SALT : String := "email-verify"

/-- Purpose salt for password reset (route/auth.py line 85). -/
def RESET_PWD_SALT : String := "password-reset"

/-- route/auth.py `create_email_verification_token`. -/
def create_email_verification_token (key : String) (uid now : Nat) : Token :=
  dumps key EMAIL_VERIFY_SALT uid now

/-- route/auth.py `verify_email_verification_token`: `loads` with the
email-verify salt and `max_age = 60*60*24`; both `BadSignature` and
`SignatureExpired` are caught and collapsed to `None`. -/
def verify_email_verification_token (key : String) (store : List User)
    (tok : Token) (now : Nat) : Option User :=
  match loads key EMAIL_VERIFY_SALT (60 * 60 * 24) tok now with
  | .ok uid => queryGet store uid
  | .error _ => none

/-- route/auth.py `create_password_reset_token` (local fallback branch). -/
def create_password_reset_token (key : String) (uid now : Nat) : Token :=
  dumps key RESET_PWD_SALT uid now

/-- route/auth.py `verify_password_reset_token_local`: `loads` with the
password-reset salt and `max_age = 60*60`; both error modes become `None`. -/
def verify_password_reset_token_local (key : String) (store : List User)
    (tok : Token) (now : Nat) : Option User :=
  match loads key RESET_PWD_SALT (60 * 60) tok now with
  | .ok uid => queryGet store uid
  | .error _ => none

/-- Round-tripping `dumps` through `loads` with the same key and salt checks
only the age. -/
theorem loads_dumps (key salt : String) (maxAge uid ts now : Nat) :
    loads key salt maxAge (dumps key salt uid ts) now =
      if maxAge < now - ts then .error .Expired else .ok uid := by
  simp [loads, dumps]

/-- Presenting a token signed under one salt to a serializer using a different
salt always fails the signature check. -/
theorem loads_dumps_wrong_salt (key salt salt2 : String) (maxAge uid ts now : Nat)
    (h : salt ≠ salt2) :
    loads key salt2 maxAge (dumps key salt uid ts) now = .error .Invalid := by
  simp only [loads, dumps]
  rw [if_neg]
  intro hc
  exact h (congrArg Sig.salt hc)

/-! ### Claim C3 -/

/-- C3: a password-reset token issued at `issued` verifies (returning the
issuing user) exactly when presented at a time at most 3600 seconds after
issuance, and a token issued under the email-verification salt is always
rejected by the reset verifier. -/
theorem reset_token_lifecycle (key : String) (store : List User) (u : User)
    (issued now : Nat) (hu : queryGet store u.id = some u) :
    (verify_password_reset_token_local key store
        (create_password_reset_token key u.id issued) now = some u
      ↔ now - issued ≤ 3600)
    ∧ verify_password_reset_token_local key store
        (create_email_verification_token key u.id issued) now = none := by
  have hmain : verify_password_reset_token_local key store
      (create_password_reset_token key u.id issued) now =
      if 60 * 60 < now - issued then none else queryGet store u.id := by
    unfold verify_password_reset_token_local create_password_reset_token
    rw [loads_dumps]
    by_cases h : 60 * 60 < now - issued
    · rw [if_pos h, if_pos h]
    · rw [if_neg h, if_neg h]
  constructor
  · rw [hmain]
    by_cases h : 60 * 60 < now - issued
    · rw [if_pos h]
      constructor
      · intro hc
        exact absurd hc (by simp)
      · intro hc
        omega
    · rw [if_neg h, hu]
      constructor
      · intro _
        omega
      · intro _
        rfl
  · unfold verify_password_reset_token_local create_email_verification_token
    rw [loads_dumps_wrong_salt key EMAIL_VERIFY_SALT RESET_PWD_SALT _ _ _ _ (by decide)]

def u0 : User :=
  { id := 1, name := "Ana", email := "ana@example.com",
    password := generate_password_hash "secret1", role := "client",
    is_active := true, marketing_allowed := false,
    profile_photo_path := none, vehicle_id := none }

/-- Witness for C3 at a concrete store, key and timestamps. -/
theorem reset_token_lifecycle_witness :
    (verify_password_reset_token_local "k" [u0]
        (create_password_reset_token "k" u0.id 5) 100 = some u0
      ↔ 100 - 5 ≤ 3600)
    ∧ verify_password_reset_token_local "k" [u0]
        (create_email_verification_token "k" u0.id 5) 100 = none :=
  reset_token_lifecycle "k" [u0] u0 5 100 (by decide)

/-! ### Claim C5 -/

/-- C5 counterexample: the repository's email-token verifier returns the very
same result (`none`) for an expired-but-authentic token and for a token signed
under the wrong salt, so the two failure modes are not distinguishable in the
verifier's result. -/
theorem email_verifier_collapses_failures :
    loads "secret" EMAIL_VERIFY_SALT (60 * 60 * 24)
        (dumps "secret" EMAIL_VERIFY_SALT 1 0) 100000 = .error .Expired
    ∧ loads "secret" EMAIL_VERIFY_SALT (60 * 60 * 24)
        (dumps "secret" RESET_PWD_SALT 1 0) 100000 = .error .Invalid
    ∧ verify_email_verification_token "secret" [u0]
        (dumps "secret" EMAIL_VERIFY_SALT 1 0) 100000
      = verify_email_verification_token "secret" [u0]
        (dumps "secret" RESET_PWD_SALT 1 0) 100000 := by
  refine ⟨by rfl, by rfl, by rfl⟩

/-- C5 amended: the underlying signed-token `loads` fails with the distinct
`Expired` error exactly when the signature is authentic but the age exceeds
`max_age`, and with the distinct `Invalid` error exactly when the signature
check fails (tampered, malformed or wrong purpose salt); the repository's
`verify_email_verification_token`, however, maps both failures to `none`. -/
theorem token_failure_modes (key salt : String) (maxAge : Nat) (tok : Token)
    (now : Nat) (store : List User) :
    (loads key salt maxAge tok now = .error .Expired
      ↔ (tok.sig = mkSig key salt tok.uid tok.ts ∧ maxAge < now - tok.ts))
    ∧ (loads key salt maxAge tok now = .error .Invalid
      ↔ tok.sig ≠ mkSig key salt tok.uid tok.ts)
    ∧ (∀ e : TokenError,
        loads key EMAIL_VERIFY_SALT (60 * 60 * 24) tok now = .error e →
        verify_email_verification_token key store tok now = none) := by
  refine ⟨?_, ?_, ?_⟩
  · unfold loads
    by_cases hsig : tok.sig = mkSig key salt tok.uid tok.ts
    · rw [if_pos hsig]
      by_cases hage : maxAge < now - tok.ts
      · rw [if_pos hage]
        simp [hsig, hage]
      · rw [if_neg hage]
        simp [hage]
    · rw [if_neg hsig]
      simp [hsig]
  · unfold loads
    by_cases hsig : tok.sig = mkSig key salt tok.uid tok.ts
    · rw [if_pos hsig]
      by_cases hage : maxAge < now - tok.ts
      · rw [if_pos hage]
        simp [hsig]
      · rw [if_neg hage]
        simp [hsig]
    · rw [if_neg hsig]
      simp [hsig]
  · intro e he
    unfold verify_email_verification_token
    rw [he]

/-- Witness for C5 amended at a concrete token: an authentic token aged
beyond 24h triggers `Expired` at the library layer yet yields `none` from the
repository verifier. -/
theorem token_failure_modes_witness :
    loads "k" EMAIL_VERIFY_SALT (60 * 60 * 24)
        (dumps "k" EMAIL_VERIFY_SALT 7 0) 100000 = .error .Expired
    ∧ verify_email_verification_token "k" []
        (dumps "k" EMAIL_VERIFY_SALT 7 0) 100000 = none := by
  have h := token_failure_modes "k" EMAIL_VERIFY_SALT (60 * 60 * 24)
    (dumps "k" EMAIL_VERIFY_SALT 7 0) 100000 []
  have hexp := h.1.mpr (by constructor <;> decide)
  exact ⟨hexp, h.2.2 .Expired hexp⟩

/-! ## User creation (route/auth.py `register`, routes.py `create_user`) -/

/-- The JSON body of `POST /auth/register` after `RegisterSchema` validation
(auth_schema.py: `name`, `email`, `password`, `marketing_allowed`; the
`password_confirmation` match is checked by the schema and not used further). -/
structure RegisterData where
  name : String
  email : String
  password : String
  marketing_allowed : Bool
deriving DecidableEq, Repr

/-- The user row inserted by `register` for body `d` and fresh id `n`:
lowercased email, hashed password. -/
def regUser (d : RegisterData) (n : Nat) : User :=
  { id := n, name := d.name, email := pyLower d.email,
    password := generate_password_hash d.password,
    role := "client", is_active := true,
    marketing_allowed := d.marketing_allowed,
    profile_photo_path := none, vehicle_id := none }

/-- route/auth.py `register` (lines 158-208): lowercases the email, rejects a
duplicate with 400 leaving the store unchanged, otherwise inserts the new user
with the lowercased email and hashed password and answers 201. -/
def register (store : List User) (d : RegisterData) (newId : Nat) :
    Nat × List User :=
  match filterByEmailFirst store (pyLower d.email) with
  | some _ => (400, store)
  | none => (201, store ++ [regUser d newId])

/-- The JSON body of `POST /api/users` (routes.py `create_user`): `name`,
`email`, `password` read with `data.get`, `role` defaulting to "client",
`is_active` defaulting to `True`. -/
structure CreateUserData where
  name : Option String
  email : Option String
  password : Option String
  role : String
  is_active : Bool
deriving DecidableEq, Repr

/-- Python falsiness of an optional string field: absent or empty. -/
def falsyStr : Option String → Bool
  | none => true
  | some s => s == ""

/-- routes.py `create_user` (lines 57-83): requires name, email and password
to be present (Python truthiness), checks duplicates against the email exactly
as given, and stores the email verbatim — no trimming or lowercasing anywhere. -/
def create_user (store : List User) (d : CreateUserData) (newId : Nat) :
    Nat × List User :=
  if falsyStr d.name || falsyStr d.email || falsyStr d.password then (400, store)
  else
    match d.name, d.email, d.password with
    | some name, some email, some password =>
        match filterByEmailFirst store email with
        | some _ => (400, store)
        | none =>
            (201, store ++ [{ id := newId, name := name, email := email,
                              password := generate_password_hash password,
                              role := d.role, is_active := d.is_active,
                              marketing_allowed := false,
                              profile_photo_path := none, vehicle_id := none }])
    | _, _, _ => (400, store)

/-! ### Claim C1 -/

/-- C1 counterexample: with "ana@example.com" already registered, creating a
user through `POST /api/users` with the case variant "Ana@Example.COM"
succeeds (201), grows the store, and stores the email verbatim rather than
lowercased and trimmed — so normalization does not precede the uniqueness
check in every user-creation path. -/
theorem create_user_skips_normalization :
    (create_user [u0]
      { name := some "Ana2", email := some "Ana@Example.COM",
        password := some "pw2", role := "client", is_active := true } 2).1 = 201
    ∧ (create_user [u0]
      { name := some "Ana2", email := some "Ana@Example.COM",
        password := some "pw2", role := "client", is_active := true } 2).2.length = 2
    ∧ ((create_user [u0]
      { name := some "Ana2", email := some "Ana@Example.COM",
        password := some "pw2", role := "client", is_active := true } 2).2.map
          User.email) = ["ana@example.com", "Ana@Example.COM"] := by
  refine ⟨by rfl, by rfl, by rfl⟩

/-- If a predicate finds nothing in the first list, searching the
concatenation searches the second list. -/
theorem find?_append_none {α : Type} (p : α → Bool) (l1 l2 : List α)
    (h : l1.find? p = none) : (l1 ++ l2).find? p = l2.find? p := by
  induction l1 with
  | nil => rfl
  | cons a t ih =>
      cases hpa : p a with
      | true =>
          rw [List.find?_cons_of_pos _ hpa] at h
          exact absurd h (by simp)
      | false =>
          have hpa2 : ¬ p a = true := by simp [hpa]
          rw [List.find?_cons_of_neg _ hpa2] at h
          rw [List.cons_append, List.find?_cons_of_neg _ hpa2]
          exact ih h

/-- When the lowercased email is free, `register` inserts and answers 201. -/
theorem register_free (store : List User) (d : RegisterData) (n : Nat)
    (h : filterByEmailFirst store (pyLower d.email) = none) :
    register store d n = (201, store ++ [regUser d n]) := by
  unfold register
  rw [h]

/-- When the lowercased email is taken, `register` answers 400 and leaves the
store unchanged. -/
theorem register_taken (store : List User) (d : RegisterData) (n : Nat)
    (u : User) (h : filterByEmailFirst store (pyLower d.email) = some u) :
    register store d n = (400, store) := by
  unfold register
  rw [h]

/-- C1 amended: in the `POST /auth/register` path the stored email equals the
lowercased (though not trimmed) input email, and a second registration whose
email differs only in case fails with the 400 duplicate-email response leaving
the user store unchanged; the `POST /api/users` `create_user` path performs no
normalization at all (see the counterexample). -/
theorem register_email_normalization (store : List User) (d d2 : RegisterData)
    (n n2 : Nat) (h : (register store d n).1 = 201) :
    (∃ u : User, (register store d n).2 = store ++ [u]
        ∧ u.email = pyLower d.email)
    ∧ (pyLower d2.email = pyLower d.email →
        register ((register store d n).2) d2 n2 = (400, (register store d n).2)) := by
  cases hfind : filterByEmailFirst store (pyLower d.email) with
  | some u =>
      rw [register_taken store d n u hfind] at h
      exact absurd h (by simp)
  | none =>
      rw [register_free store d n hfind]
      constructor
      · exact ⟨regUser d n, rfl, rfl⟩
      · intro hsame
        have hfind2 : filterByEmailFirst (store ++ [regUser d n])
            (pyLower d2.email) = some (regUser d n) := by
          unfold filterByEmailFirst at hfind ⊢
          rw [hsame, find?_append_none _ _ _ hfind]
          simp [regUser, List.find?]
        rw [register_taken (store ++ [regUser d n]) d2 n2 (regUser d n) hfind2]

/-- Witness for C1 amended: registering "Ana@Example.com" stores
"ana@example.com" and the case-variant re-registration is refused. -/
theorem register_email_normalization_witness :
    (∃ u : User,
        (register [] { name := "Ana", email := "Ana@Example.com",
                       password := "secret1", marketing_allowed := false } 1).2
          = [] ++ [u]
        ∧ u.email = pyLower "Ana@Example.com")
    ∧ (pyLower "ANA@EXAMPLE.COM" = pyLower "Ana@Example.com" →
        register ((register [] { name := "Ana", email := "Ana@Example.com",
                                 password := "secret1", marketing_allowed := false } 1).2)
          { name := "B", email := "ANA@EXAMPLE.COM", password := "secret2",
            marketing_allowed := false } 2
        = (400, (register [] { name := "Ana", email := "Ana@Example.com",
                               password := "secret1", marketing_allowed := false } 1).2)) :=
  register_email_normalization []
    { name := "Ana", email := "Ana@Example.com", password := "secret1",
      marketing_allowed := false }
    { name := "B", email := "ANA@EXAMPLE.COM", password := "secret2",
      marketing_allowed := false } 1 2 (by rfl)

/-! ## Password-reset request endpoints (route/auth.py `request_password_reset`,
routes.py `forgot_password`) -/

/-- Observable outcome of a password-reset request: HTTP status, response
message, whether a reset token was generated and whether an email was sent. -/
structure ResetRequestResult where
  status : Nat
  message : String
  tokenGenerated : Bool
  emailSent : Bool
deriving DecidableEq, Repr

/-- The generic anti-enumeration message of route/auth.py line 344. -/
def generic_msg : String :=
  "Si el email existe, enviaremos instrucciones para restablecer la contraseña."

/-- route/auth.py `request_password_reset` (lines 338-370): the payload email
(defaulting to "") is lowercased then stripped; an empty or unknown email
yields the generic 200 with no token and no mail; a known email generates a
token and sends mail but returns the very same generic 200 (even a mail
failure is swallowed into the same response). -/
def request_password_reset (store : List User) (payloadEmail : Option String) :
    ResetRequestResult :=
  let email := pyStrip (pyLower (payloadEmail.getD ""))
  if email == "" then ⟨200, generic_msg, false, false⟩
  else
    match filterByEmailFirst store email with
    | none => ⟨200, generic_msg, false, false⟩
    | some _ => ⟨200, generic_msg, true, true⟩

/-- Observable outcome of routes.py `forgot_password`: HTTP status, whether the
fresh token is included in the response body, and whether mail was sent. -/
structure ForgotResult where
  status : Nat
  tokenInResponse : Bool
  emailSent : Bool
deriving DecidableEq, Repr

/-- routes.py `forgot_password` (lines 196-214). Modelled from the spec: the
`Users` model it queries is not defined under src/ (auth.py imports
`api.models2`, also absent), so its rows are modelled by the §3 base `User`
record. The handler looks the email up verbatim, answers 404 "Email no
encontrado" when it is absent, and otherwise returns 200 with the reset token
included in the JSON body. -/
def forgot_password (store : List User) (email : String) : ForgotResult :=
  match filterByEmailFirst store email with
  | none => ⟨404, false, false⟩
  | some _ => ⟨200, true, true⟩

/-! ### Claim C2 -/

/-- C2 counterexample: the legacy `/forgot-password` endpoint answers 404 for
an unknown email and a token-bearing 200 for a known one — the response is not
the generic 200 and does depend on user-store membership. -/
theorem forgot_password_distinguishes :
    (forgot_password [] "ana@example.com").status = 404
    ∧ forgot_password [u0] "ana@example.com"
        = ⟨200, true, true⟩
    ∧ decide (forgot_password [] "ana@example.com"
        = forgot_password [u0] "ana@example.com") = false := by
  refine ⟨by rfl, by rfl, by rfl⟩

/-- C2 amended: the `/auth/password/request` endpoint always returns HTTP 200
with the identical generic message — the (status, message) pair is independent
of the user store (two-run noninterference) — and when the normalized email is
not in the store no token is generated and no email is sent; the legacy
`/forgot-password` endpoint is excluded (see the counterexample). -/
theorem request_password_reset_generic (store store2 : List User)
    (p : Option String) :
    (request_password_reset store p).status = 200
    ∧ (request_password_reset store p).message = generic_msg
    ∧ ((request_password_reset store p).status,
        (request_password_reset store p).message)
      = ((request_password_reset store2 p).status,
        (request_password_reset store2 p).message)
    ∧ (filterByEmailFirst store (pyStrip (pyLower (p.getD ""))) = none →
        (request_password_reset store p).tokenGenerated = false
        ∧ (request_password_reset store p).emailSent = false) := by
  have hshape : ∀ (s : List User),
      (request_password_reset s p).status = 200
      ∧ (request_password_reset s p).message = generic_msg := by
    intro s
    unfold request_password_reset
    by_cases he : (pyStrip (pyLower (p.getD "")) == "") = true
    · rw [if_pos he]
      exact ⟨rfl, rfl⟩
    · rw [if_neg he]
      cases filterByEmailFirst s (pyStrip (pyLower (p.getD ""))) with
      | none => exact ⟨rfl, rfl⟩
      | some _ => exact ⟨rfl, rfl⟩
  refine ⟨(hshape store).1, (hshape store).2, ?_, ?_⟩
  · rw [(hshape store).1, (hshape store).2,
        (hshape store2).1, (hshape store2).2]
  · intro hnone
    unfold request_password_reset
    by_cases he : (pyStrip (pyLower (p.getD "")) == "") = true
    · rw [if_pos he]
      exact ⟨rfl, rfl⟩
    · rw [if_neg he, hnone]
      exact ⟨rfl, rfl⟩

/-- Witness for C2 amended at a concrete unknown email. -/
theorem request_password_reset_generic_witness :
    (request_password_reset [u0] (some "ghost@example.com")).status = 200
    ∧ (request_password_reset [u0] (some "ghost@example.com")).message = generic_msg
    ∧ ((request_password_reset [u0] (some "ghost@example.com")).status,
        (request_password_reset [u0] (some "ghost@example.com")).message)
      = ((request_password_reset [] (some "ghost@example.com")).status,
        (request_password_reset [] (some "ghost@example.com")).message)
    ∧ (filterByEmailFirst [u0] (pyStrip (pyLower ((some "ghost@example.com").getD ""))) = none →
        (request_password_reset [u0] (some "ghost@example.com")).tokenGenerated = false
        ∧ (request_password_reset [u0] (some "ghost@example.com")).emailSent = false) :=
  request_password_reset_generic [u0] [] (some "ghost@example.com")

/-! ## Login endpoints (route/auth.py `login`, routes.py `signin`) -/

/-- The JSON body of `POST /auth/login` after `LoginSchema` validation. -/
structure LoginData where
  email : String
  password : String
deriving DecidableEq, Repr

/-- route/auth.py `login` (lines 132-155): lowercases the email, and returns
the single (401, "Unauthorized") response both when no user matches and when
the password hash check fails. -/
def login (store : List User) (d : LoginData) : Nat × String :=
  match filterByEmailFirst store (pyLower d.email) with
  | none => (401, "Unauthorized")
  | some u =>
      if check_password_hash u.password d.password then (200, "Login successful")
      else (401, "Unauthorized")

/-- A row of the `Users` model referenced by routes.py `signin` and
`forgot_password`. Modelled from the spec: that model is not defined under
src/; per §3 it is a base user identity record, with the `username` column the
handler also matches on. -/
structure UsersRow where
  id : Nat
  email : String
  username : String
  password : String
deriving DecidableEq, Repr

/-- routes.py `signin` (lines 151-177): missing data returns a default-status
200 error body; an unknown email/username raises, caught as a generic 400
"somthing went wrong"; a wrong password returns a default-status 200 body
"wrong email/password"; success returns 201. -/
def signin (store : List UsersRow) (identify password : String) :
    Nat × String :=
  if password == "" || identify == "" then (200, "missing data")
  else
    match store.find? (fun u => u.email == identify || u.username == identify) with
    | none => (400, "somthing went wrong")
    | some u =>
        if check_password_hash u.password password then (201, "SignIn OK")
        else (200, "wrong email/password")

/-! ### Claim C4 -/

def bobRow : UsersRow :=
  ⟨1, "bob@example.com", "bob", generate_password_hash "right"⟩

/-- C4 counterexample: in the legacy `signin` route the no-such-user failure
(400, generic) and the wrong-password failure (200, "wrong email/password")
are different responses, and neither is a 401. -/
theorem signin_distinguishes :
    signin [] "bob@example.com" "right" = (400, "somthing went wrong")
    ∧ signin [bobRow] "bob@example.com" "wrong" = (200, "wrong email/password")
    ∧ decide (signin [] "bob@example.com" "right"
        = signin [bobRow] "bob@example.com" "wrong") = false := by
  refine ⟨by rfl, by rfl, by rfl⟩

/-- C4 amended: the `/auth/login` endpoint fails closed with the single
(401, "Unauthorized") response both when no user exists for the lowercased
email and when the password hash does not match, so the two causes are not
distinguishable there; the legacy `signin` route does distinguish them (see
the counterexample). -/
theorem login_fails_closed (store : List User) (d : LoginData) :
    (filterByEmailFirst store (pyLower d.email) = none →
      login store d = (401, "Unauthorized"))
    ∧ (∀ u : User, filterByEmailFirst store (pyLower d.email) = some u →
        check_password_hash u.password d.password = false →
        login store d = (401, "Unauthorized")) := by
  constructor
  · intro h
    unfold login
    rw [h]
  · intro u hu hpw
    unfold login
    rw [hu]
    simp [hpw]

/-- Witness for C4 amended: both failure causes produce the identical 401 at
concrete inputs. -/
theorem login_fails_closed_witness :
    (filterByEmailFirst [] (pyLower "ana@example.com") = none →
      login [] { email := "ana@example.com", password := "secret1" }
        = (401, "Unauthorized"))
    ∧ (∀ u : User,
        filterByEmailFirst [] (pyLower "ana@example.com") = some u →
        check_password_hash u.password "secret1" = false →
        login [] { email := "ana@example.com", password := "secret1" }
          = (401, "Unauthorized")) :=
  login_fails_closed [] { email := "ana@example.com", password := "secret1" }

/-! ## Effective permissions (user_schema.py `UserSchema._dump_permissions`) -/

/-- A row of the `permissions` table (models.py): `id` primary key, `name`.
There is no `code` column. -/
structure Permission where
  id : Nat
  name : String
deriving DecidableEq, Repr

/-- A row of the `roles` table with its `permissions` relationship
(models.py, `roles_permissions` secondary). -/
structure Role where
  id : Nat
  name : String
  permissions : List Permission
deriving DecidableEq, Repr

/-- The deduplication key of `_dump_permissions`:
`getattr(p, "id", None) or getattr(p, "code", None) or getattr(p, "name", None)`.
A `Permission` has `id` and `name` but no `code`, so the key is the id when it
is truthy (nonzero), else the name when nonempty, else Python `None`. -/
inductive PermKey where
  | kid : Nat → PermKey
  | kname : String → PermKey
  | knone : PermKey
deriving DecidableEq, Repr

def permKey (p : Permission) : PermKey :=
  if p.id ≠ 0 then .kid p.id else if p.name ≠ "" then .kname p.name else .knone

/-- One inner-loop step of `_dump_permissions`: skip a permission whose key was
already seen, else append it (and its key to `seen`). -/
def dumpStep (acc : List Permission × List PermKey) (p : Permission) :
    List Permission × List PermKey :=
  if permKey p ∈ acc.2 then acc else (acc.1 ++ [p], acc.2 ++ [permKey p])

/-- The inner loop of `_dump_permissions` over one role's permission list. -/
def dumpFlat (ps : List Permission) (acc : List Permission × List PermKey) :
    List Permission × List PermKey :=
  ps.foldl dumpStep acc

/-- user_schema.py `UserSchema._dump_permissions` (lines 97-119) on the
models.py `User`, which has a `roles` relationship but no direct `permissions`
attribute: aggregate permissions across the user's roles, skipping any whose
key is already in `seen`. -/
def dump_permissions (roles : List Role) : List Permission :=
  (roles.foldl (fun acc r => dumpFlat r.permissions acc) ([], [])).1

/-- All permissions reachable from a role list, in iteration order. -/
def allPerms (roles : List Role) : List Permission :=
  (roles.map Role.permissions).flatten

/-- The nested role/permission loop of `_dump_permissions` is the flat loop
over the concatenation of the roles' permission lists. -/
theorem dump_permissions_flat (roles : List Role) :
    ∀ acc, roles.foldl (fun acc r => dumpFlat r.permissions acc) acc
      = dumpFlat (allPerms roles) acc := by
  induction roles with
  | nil => intro acc; rfl
  | cons r rest ih =>
      intro acc
      show List.foldl _ (dumpFlat r.permissions acc) rest = _
      rw [ih (dumpFlat r.permissions acc)]
      unfold dumpFlat allPerms
      rw [List.map_cons, List.flatten_cons, List.foldl_append]

/-- The seen-key list tracks the keys of the output list. -/
theorem dumpFlat_snd (ps : List Permission) :
    ∀ acc : List Permission × List PermKey,
      acc.2 = acc.1.map permKey →
      (dumpFlat ps acc).2 = (dumpFlat ps acc).1.map permKey := by
  induction ps with
  | nil => intro acc h; exact h
  | cons p t ih =>
      intro acc h
      show (dumpFlat t (dumpStep acc p)).2 = _
      apply ih
      unfold dumpStep
      by_cases hk : permKey p ∈ acc.2
      · rw [if_pos hk]; exact h
      · rw [if_neg hk]
        simp only [List.map_append, List.map_cons, List.map_nil]
        rw [h]

/-- The seen-key list stays duplicate-free. -/
theorem dumpFlat_nodup (ps : List Permission) :
    ∀ acc : List Permission × List PermKey,
      acc.2.Nodup → (dumpFlat ps acc).2.Nodup := by
  induction ps with
  | nil => intro acc h; exact h
  | cons p t ih =>
      intro acc h
      show (dumpFlat t (dumpStep acc p)).2.Nodup
      apply ih
      unfold dumpStep
      by_cases hk : permKey p ∈ acc.2
      · rw [if_pos hk]; exact h
      · rw [if_neg hk]
        simp [List.nodup_append, h, hk]

/-- A key is seen after the loop exactly when it was already seen or belongs
to some processed permission. -/
theorem dumpFlat_mem_keys (ps : List Permission) :
    ∀ (acc : List Permission × List PermKey) (k : PermKey),
      (k ∈ (dumpFlat ps acc).2 ↔ k ∈ acc.2 ∨ ∃ p ∈ ps, permKey p = k) := by
  induction ps with
  | nil => intro acc k; simp [dumpFlat]
  | cons p t ih =>
      intro acc k
      show k ∈ (dumpFlat t (dumpStep acc p)).2 ↔ _
      rw [ih]
      unfold dumpStep
      by_cases hk : permKey p ∈ acc.2
      · rw [if_pos hk]
        constructor
        · rintro (h | h)
          · exact Or.inl h
          · exact Or.inr (by simpa using Or.inr h)
        · rintro (h | ⟨q, hq, hqk⟩)
          · exact Or.inl h
          · rcases List.mem_cons.mp hq with rfl | hq2
            · exact Or.inl (hqk ▸ hk)
            · exact Or.inr ⟨q, hq2, hqk⟩
      · rw [if_neg hk]
        simp only [List.mem_append, List.mem_singleton, List.mem_cons,
          List.not_mem_nil, or_false]
        constructor
        · rintro ((h | rfl) | ⟨q, hq, hqk⟩)
          · exact Or.inl h
          · exact Or.inr ⟨p, Or.inl rfl, rfl⟩
          · exact Or.inr ⟨q, Or.inr hq, hqk⟩
        · rintro (h | ⟨q, hq | hq, hqk⟩)
          · exact Or.inl (Or.inl h)
          · subst hq; exact Or.inl (Or.inr hqk.symm)
          · exact Or.inr ⟨q, hq, hqk⟩

/-- Every output element comes from the accumulator or the processed list. -/
theorem dumpFlat_mem_elems (ps : List Permission) :
    ∀ (acc : List Permission × List PermKey) (q : Permission),
      q ∈ (dumpFlat ps acc).1 → q ∈ acc.1 ∨ q ∈ ps := by
  induction ps with
  | nil => intro acc q h; exact Or.inl h
  | cons p t ih =>
      intro acc q h
      have h2 := ih (dumpStep acc p) q h
      unfold dumpStep at h2
      by_cases hk : permKey p ∈ acc.2
      · rw [if_pos hk] at h2
        rcases h2 with h2 | h2
        · exact Or.inl h2
        · exact Or.inr (List.mem_cons_of_mem p h2)
      · rw [if_neg hk] at h2
        rcases h2 with h2 | h2
        · rcases List.mem_append.mp h2 with h3 | h3
          · exact Or.inl h3
          · exact Or.inr (List.mem_cons.mpr (Or.inl (List.mem_singleton.mp h3)))
        · exact Or.inr (List.mem_cons_of_mem p h2)

/-! ### Claim C6 -/

/-- C6: for a user whose roles R1 and R2 both reference the same permission
row P (row identity: P is the only permission among the user's roles carrying
P's key), the aggregated effective-permission list contains P exactly once;
in general the output draws only from the union of the roles' permissions and
covers every permission of every role up to its deduplication key. -/
theorem effective_permissions_dedup (R1 R2 : Role) (P : Permission)
    (h1 : P ∈ R1.permissions) (_h2 : P ∈ R2.permissions)
    (hid : ∀ q ∈ R1.permissions ++ R2.permissions,
      permKey q = permKey P → q = P) :
    (dump_permissions [R1, R2]).count P = 1
    ∧ (∀ q ∈ dump_permissions [R1, R2],
        q ∈ R1.permissions ∨ q ∈ R2.permissions)
    ∧ (∀ q ∈ R1.permissions ++ R2.permissions,
        ∃ q2 ∈ dump_permissions [R1, R2], permKey q2 = permKey q) := by
  have hflat : dump_permissions [R1, R2]
      = (dumpFlat (R1.permissions ++ R2.permissions) ([], [])).1 := by
    unfold dump_permissions
    rw [dump_permissions_flat [R1, R2] ([], [])]
    unfold allPerms
    simp
  have hsnd : (dumpFlat (R1.permissions ++ R2.permissions) ([], [])).2
      = (dumpFlat (R1.permissions ++ R2.permissions) ([], [])).1.map permKey :=
    dumpFlat_snd _ ([], []) rfl
  have hnodupkeys : (dumpFlat (R1.permissions ++ R2.permissions) ([], [])).2.Nodup :=
    dumpFlat_nodup _ ([], []) List.nodup_nil
  have hnodup : (dumpFlat (R1.permissions ++ R2.permissions) ([], [])).1.Nodup := by
    rw [hsnd] at hnodupkeys
    exact hnodupkeys.of_map permKey
  have hmemkey : permKey P ∈ (dumpFlat (R1.permissions ++ R2.permissions) ([], [])).2 := by
    rw [dumpFlat_mem_keys]
    exact Or.inr ⟨P, List.mem_append.mpr (Or.inl h1), rfl⟩
  have hmemP : P ∈ (dumpFlat (R1.permissions ++ R2.permissions) ([], [])).1 := by
    rw [hsnd] at hmemkey
    rcases List.mem_map.mp hmemkey with ⟨q, hq, hqk⟩
    have hq2 := dumpFlat_mem_elems _ ([], []) q hq
    rcases hq2 with hq2 | hq2
    · exact absurd hq2 (List.not_mem_nil q)
    · rw [← hid q hq2 hqk]
      exact hq
  refine ⟨?_, ?_, ?_⟩
  · rw [hflat]
    exact List.count_eq_one_of_mem hnodup hmemP
  · intro q hq
    rw [hflat] at hq
    have := dumpFlat_mem_elems _ ([], []) q hq
    rcases this with h | h
    · exact absurd h (List.not_mem_nil q)
    · exact List.mem_append.mp h
  · intro q hq
    rw [hflat]
    have hk : permKey q ∈ (dumpFlat (R1.permissions ++ R2.permissions) ([], [])).2 := by
      rw [dumpFlat_mem_keys]
      exact Or.inr ⟨q, hq, rfl⟩
    rw [hsnd] at hk
    rcases List.mem_map.mp hk with ⟨q2, hq2, hq2k⟩
    exact ⟨q2, hq2, hq2k⟩

/-- Witness for C6: two roles sharing the permission row (5, "rides.view"). -/
theorem effective_permissions_dedup_witness :
    (dump_permissions
        [⟨1, "r1", [⟨5, "rides.view"⟩]⟩, ⟨2, "r2", [⟨5, "rides.view"⟩]⟩]).count
        ⟨5, "rides.view"⟩ = 1
    ∧ (∀ q ∈ dump_permissions
          [⟨1, "r1", [⟨5, "rides.view"⟩]⟩, ⟨2, "r2", [⟨5, "rides.view"⟩]⟩],
        q ∈ [(⟨5, "rides.view"⟩ : Permission)]
          ∨ q ∈ [(⟨5, "rides.view"⟩ : Permission)])
    ∧ (∀ q ∈ [(⟨5, "rides.view"⟩ : Permission)] ++ [(⟨5, "rides.view"⟩ : Permission)],
        ∃ q2 ∈ dump_permissions
            [⟨1, "r1", [⟨5, "rides.view"⟩]⟩, ⟨2, "r2", [⟨5, "rides.view"⟩]⟩],
          permKey q2 = permKey q) :=
  effective_permissions_dedup ⟨1, "r1", [⟨5, "rides.view"⟩]⟩
    ⟨2, "r2", [⟨5, "rides.view"⟩]⟩ ⟨5, "rides.view"⟩
    (by decide) (by decide) (by decide)

/-! ## Account self-edit (route/account.py `edit_account`) -/

/-- The last value stored under key `k` when the JSON object's pairs are read
into a Python dict (later duplicates win). -/
def lookupLast (data : List (String × String)) (k : String) : Option String :=
  (data.reverse.find? (fun kv => kv.1 == k)).map Prod.snd

/-- `name` validation of user_schema.py: `validate.Length(min=2, max=100)`. -/
def validName (s : String) : Bool := 2 ≤ s.length && s.length ≤ 100

/-- Outcome of `edit_account`: HTTP status and resulting user store. -/
structure EditOutcome where
  status : Nat
  store : List User
deriving DecidableEq, Repr

/-- Applying the validated `name` field to the user when present
(`if "name" in validated: user.name = ...`). -/
def applyName (user : User) : Option String → User
  | some n => { user with name := n }
  | none => user

/-- Body of route/account.py `edit_account` (lines 38-81) once the JWT user
row is in hand. The email validity predicate (marshmallow's `fields.Email`
regex) is an external collaborator passed as `validEmail`; the explicit
`Length(max=255)` check of user_schema.py is kept. Steps: 400 when neither
editable field is present; pre_load normalization (name stripped, email
stripped and lowercased, then `_normalize_email` lowers and strips again);
422 on validation failure; then the name is applied, and the email only when
it changes and no other user holds it (else 400 with nothing committed). -/
def edit_body (validEmail : String → Bool) (store : List User) (uid : Nat)
    (user : User) (nameRaw emailRaw : Option String) : EditOutcome :=
  if nameRaw.isNone && emailRaw.isNone then ⟨400, store⟩
  else if (match nameRaw.map pyStrip with
      | some n => !(validName n)
      | none => false)
     || (match emailRaw.map (fun e => pyLower (pyStrip e)) with
      | some e => !(validEmail e && e.length ≤ 255)
      | none => false) then ⟨422, store⟩
  else
    match emailRaw.map (fun e => pyLower (pyStrip e)) with
    | none => ⟨200, store.map (fun w => if w.id == uid
        then applyName user (nameRaw.map pyStrip) else w)⟩
    | some e =>
        if pyStrip (pyLower e) == user.email then
          ⟨200, store.map (fun w => if w.id == uid
              then applyName user (nameRaw.map pyStrip) else w)⟩
        else if (store.find?
            (fun w => w.email == pyStrip (pyLower e) && w.id != uid)).isSome then
          ⟨400, store⟩
        else
          ⟨200, store.map (fun w => if w.id == uid
              then { applyName user (nameRaw.map pyStrip)
                       with email := pyStrip (pyLower e) } else w)⟩

/-- Core of route/account.py `edit_account`: `get_or_404` on the JWT identity,
then the body above. -/
def edit_core (validEmail : String → Bool) (store : List User) (uid : Nat)
    (nameRaw emailRaw : Option String) : EditOutcome :=
  match queryGet store uid with
  | none => ⟨404, store⟩
  | some user => edit_body validEmail store uid user nameRaw emailRaw

/-- route/account.py `edit_account`: the handler keeps only the `name` and
`email` keys of the JSON body and feeds them to the core above. -/
def edit_account (validEmail : String → Bool) (store : List User) (uid : Nat)
    (data : List (String × String)) : EditOutcome :=
  edit_core validEmail store uid (lookupLast data "name") (lookupLast data "email")

/-- Searching a sublist filtered by a weaker predicate finds the same first
match. -/
theorem find?_filter_of_imp {α : Type} (l : List α) (p q : α → Bool)
    (himp : ∀ a, p a = true → q a = true) :
    (l.filter q).find? p = l.find? p := by
  induction l with
  | nil => rfl
  | cons a t ih =>
      by_cases hq : q a = true
      · rw [List.filter_cons_of_pos hq]
        cases hp : p a with
        | true =>
            rw [List.find?_cons_of_pos _ hp, List.find?_cons_of_pos _ hp]
        | false =>
            have hp2 : ¬ p a = true := by simp [hp]
            rw [List.find?_cons_of_neg _ hp2, List.find?_cons_of_neg _ hp2]
            exact ih
      · have hq2 : ¬ q a = true := hq
        rw [List.filter_cons_of_neg hq2]
        have hp2 : ¬ p a = true := fun hp => hq (himp a hp)
        rw [List.find?_cons_of_neg _ hp2]
        exact ih

/-- Restricting the body to the editable keys does not change either editable
lookup. -/
theorem lookupLast_filter_editable (data : List (String × String)) (k : String)
    (hk : k = "name" ∨ k = "email") :
    lookupLast (data.filter (fun kv => kv.1 == "name" || kv.1 == "email")) k
      = lookupLast data k := by
  unfold lookupLast
  rw [← List.filter_reverse]
  rw [find?_filter_of_imp]
  intro a ha
  rcases hk with rfl | rfl
  · simp only [Bool.or_eq_true]
    exact Or.inl ha
  · simp only [Bool.or_eq_true]
    exact Or.inr ha

/-! ### Claim C9 -/

/-- C9: a successful self-edit only replaces the requesting user's row, and
the replacement agrees with the old row on every field other than name and
email; JSON keys other than `name` and `email` are ignored (the outcome only
depends on the body filtered to those keys); and a body with no editable field
is rejected with 400 leaving the store unchanged. -/
theorem edit_account_frame (v : String → Bool) (store : List User) (uid : Nat)
    (data : List (String × String)) (user : User)
    (hu : queryGet store uid = some user) :
    ((edit_account v store uid data).status = 200 →
      ∃ u2 : User,
        (edit_account v store uid data).store
          = store.map (fun w => if w.id == uid then u2 else w)
        ∧ u2.id = user.id ∧ u2.password = user.password ∧ u2.role = user.role
        ∧ u2.is_active = user.is_active
        ∧ u2.marketing_allowed = user.marketing_allowed
        ∧ u2.profile_photo_path = user.profile_photo_path
        ∧ u2.vehicle_id = user.vehicle_id)
    ∧ edit_account v store uid data
        = edit_account v store uid
            (data.filter (fun kv => kv.1 == "name" || kv.1 == "email"))
    ∧ (lookupLast data "name" = none → lookupLast data "email" = none →
        edit_account v store uid data = ⟨400, store⟩) := by
  have happ : ∀ (o : Option String),
      (applyName user o).id = user.id
      ∧ (applyName user o).password = user.password
      ∧ (applyName user o).role = user.role
      ∧ (applyName user o).is_active = user.is_active
      ∧ (applyName user o).marketing_allowed = user.marketing_allowed
      ∧ (applyName user o).profile_photo_path = user.profile_photo_path
      ∧ (applyName user o).vehicle_id = user.vehicle_id := by
    intro o
    cases o with
    | none => exact ⟨rfl, rfl, rfl, rfl, rfl, rfl, rfl⟩
    | some n => exact ⟨rfl, rfl, rfl, rfl, rfl, rfl, rfl⟩
  have hb : edit_account v store uid data
      = edit_body v store uid user (lookupLast data "name")
          (lookupLast data "email") := by
    unfold edit_account edit_core
    rw [hu]
  refine ⟨?_, ?_, ?_⟩
  · intro h200
    rw [hb] at h200 ⊢
    unfold edit_body at h200 ⊢
    by_cases hempty : ((lookupLast data "name").isNone
        && (lookupLast data "email").isNone) = true
    · rw [if_pos hempty] at h200
      exact absurd h200 (by simp)
    · rw [if_neg hempty] at h200 ⊢
      by_cases hval : ((match (lookupLast data "name").map pyStrip with
            | some n => !(validName n)
            | none => false)
          || (match (lookupLast data "email").map (fun e => pyLower (pyStrip e)) with
            | some e => !(v e && e.length ≤ 255)
            | none => false)) = true
      · rw [if_pos hval] at h200
        exact absurd h200 (by simp)
      · rw [if_neg hval] at h200 ⊢
        cases hem : (lookupLast data "email").map (fun e => pyLower (pyStrip e)) with
        | none =>
            simp only [hem] at h200 ⊢
            exact ⟨applyName user ((lookupLast data "name").map pyStrip),
              rfl, happ _⟩
        | some e =>
            simp only [hem] at h200 ⊢
            by_cases hsame : (pyStrip (pyLower e) == user.email) = true
            · rw [if_pos hsame] at h200 ⊢
              exact ⟨applyName user ((lookupLast data "name").map pyStrip),
                rfl, happ _⟩
            · rw [if_neg hsame] at h200 ⊢
              by_cases hdup : (store.find?
                  (fun w => w.email == pyStrip (pyLower e) && w.id != uid)).isSome = true
              · rw [if_pos hdup] at h200
                exact absurd h200 (by simp)
              · rw [if_neg hdup] at h200 ⊢
                refine ⟨{ applyName user ((lookupLast data "name").map pyStrip)
                    with email := pyStrip (pyLower e) }, rfl, ?_⟩
                have h := happ ((lookupLast data "name").map pyStrip)
                exact ⟨h.1, h.2.1, h.2.2.1, h.2.2.2.1, h.2.2.2.2.1,
                  h.2.2.2.2.2.1, h.2.2.2.2.2.2⟩
  · unfold edit_account
    rw [lookupLast_filter_editable data "name" (Or.inl rfl),
        lookupLast_filter_editable data "email" (Or.inr rfl)]
  · intro hn he
    rw [hb, hn, he]
    rfl

def u9 : User :=
  { id := 1, name := "Ana", email := "old@example.com",
    password := generate_password_hash "secret1", role := "client",
    is_active := true, marketing_allowed := false,
    profile_photo_path := none, vehicle_id := none }

/-- Witness for C9: a concrete edit changing only the email, with an extra
ignored JSON key. -/
theorem edit_account_frame_witness :
    ((edit_account (fun e => e == "new@example.com") [u9] 1
        [("email", "New@Example.com "), ("role", "admin")]).status = 200 →
      ∃ u2 : User,
        (edit_account (fun e => e == "new@example.com") [u9] 1
            [("email", "New@Example.com "), ("role", "admin")]).store
          = [u9].map (fun w => if w.id == 1 then u2 else w)
        ∧ u2.id = u9.id ∧ u2.password = u9.password ∧ u2.role = u9.role
        ∧ u2.is_active = u9.is_active
        ∧ u2.marketing_allowed = u9.marketing_allowed
        ∧ u2.profile_photo_path = u9.profile_photo_path
        ∧ u2.vehicle_id = u9.vehicle_id)
    ∧ edit_account (fun e => e == "new@example.com") [u9] 1
        [("email", "New@Example.com "), ("role", "admin")]
      = edit_account (fun e => e == "new@example.com") [u9] 1
          ([("email", "New@Example.com "), ("role", "admin")].filter
            (fun kv => kv.1 == "name" || kv.1 == "email"))
    ∧ (lookupLast [("email", "New@Example.com "), ("role", "admin")] "name" = none →
        lookupLast [("email", "New@Example.com "), ("role", "admin")] "email" = none →
        edit_account (fun e => e == "new@example.com") [u9] 1
          [("email", "New@Example.com "), ("role", "admin")] = ⟨400, [u9]⟩) :=
  edit_account_frame (fun e => e == "new@example.com") [u9] 1
    [("email", "New@Example.com "), ("role", "admin")] u9 (by rfl)

/-! ## Vehicle assignment (models.py `User.vehicle_id`, spec §4.4) -/

/-- The Vehicle-to-Driver mapping: the pairs (driver id, vehicle id) induced by
the non-null `users.vehicle_id` column (models.py lines 39-41 declare it
`unique`, mirroring the 1:1 `Driver.vehicle` relationship of lines 132-136). -/
structure FleetState where
  assignments : List (Nat × Nat)
deriving DecidableEq, Repr

/-- The database 1:1 invariant: each driver holds at most one vehicle (driver
ids are pairwise distinct) and each vehicle belongs to at most one driver
(vehicle ids are pairwise distinct, the `unique` constraint on `vehicle_id`). -/
def FleetWF (st : FleetState) : Prop :=
  (st.assignments.map Prod.fst).Nodup ∧ (st.assignments.map Prod.snd).Nodup

instance (st : FleetState) : Decidable (FleetWF st) :=
  inferInstanceAs (Decidable (_ ∧ _))

inductive AssignError where
  | VehicleAlreadyAssigned
deriving DecidableEq, Repr

/-- Modelled from the spec: the `assignVehicle(vehicle)` operation of §4.4 is
not implemented under src/ — only the `vehicle_id` column declaration and its
unique constraint appear in models.py — so it is modelled from the spec's
words: assigning a Vehicle already held by another Driver fails with
`Error::VehicleAlreadyAssigned` rather than silently reassigning; otherwise
the driver's held vehicle becomes the given one. -/
def assignVehicle (st : FleetState) (d v : Nat) :
    Except AssignError FleetState :=
  match st.assignments.find? (fun a => a.2 == v && a.1 != d) with
  | some _ => .error .VehicleAlreadyAssigned
  | none => .ok ⟨(st.assignments.filter (fun a => a.1 != d)) ++ [(d, v)]⟩

/-! ### Claim C8 -/

/-- C8: assigning a vehicle already held by driver `a` to a distinct driver
`b` fails with `VehicleAlreadyAssigned` (no new state is produced, so the
mapping is unchanged), and every successful `assignVehicle` preserves the 1:1
invariant. -/
theorem assign_vehicle_1to1 (st : FleetState) (a b v : Nat)
    (hheld : (a, v) ∈ st.assignments) (hne : b ≠ a) :
    assignVehicle st b v = .error .VehicleAlreadyAssigned
    ∧ (∀ (d w : Nat) (st2 : FleetState), FleetWF st →
        assignVehicle st d w = .ok st2 → FleetWF st2) := by
  constructor
  · unfold assignVehicle
    cases hfind : st.assignments.find? (fun x => x.2 == v && x.1 != b) with
    | some x => rfl
    | none =>
        exfalso
        apply List.find?_eq_none.mp hfind (a, v) hheld
        rw [Bool.and_eq_true]
        exact ⟨beq_self_eq_true v, bne_iff_ne.mpr (Ne.symm hne)⟩
  · intro d w st2 hwf hok
    unfold assignVehicle at hok
    cases hfind : st.assignments.find? (fun x => x.2 == w && x.1 != d) with
    | some x => rw [hfind] at hok; exact absurd hok (by simp)
    | none =>
        rw [hfind] at hok
        have hst2 : st2 = ⟨(st.assignments.filter (fun a => a.1 != d)) ++ [(d, w)]⟩ := by
          cases hok
          rfl
        subst hst2
        have hnone := List.find?_eq_none.mp hfind
        have hsub : (st.assignments.filter (fun a => a.1 != d)).Sublist
            st.assignments := List.filter_sublist _
        constructor
        · simp only [List.map_append, List.map_cons, List.map_nil]
          rw [List.nodup_append]
          refine ⟨(hsub.map Prod.fst).nodup hwf.1, List.nodup_singleton d, ?_⟩
          intro x hx
          rcases List.mem_map.mp hx with ⟨p, hp, rfl⟩
          intro hcontra
          rw [List.mem_singleton] at hcontra
          have hpred := List.of_mem_filter hp
          have hpred2 : (p.1 != d) = true := hpred
          rw [hcontra] at hpred2
          simp at hpred2
        · simp only [List.map_append, List.map_cons, List.map_nil]
          rw [List.nodup_append]
          refine ⟨(hsub.map Prod.snd).nodup hwf.2, List.nodup_singleton w, ?_⟩
          intro x hx
          rcases List.mem_map.mp hx with ⟨p, hp, rfl⟩
          intro hcontra
          rw [List.mem_singleton] at hcontra
          have hmem := List.mem_of_mem_filter hp
          have hpred := List.of_mem_filter hp
          have hpred2 : (p.1 != d) = true := hpred
          apply hnone p hmem
          rw [Bool.and_eq_true]
          exact ⟨beq_iff_eq.mpr hcontra, hpred2⟩

/-- Witness for C8: driver 1 holds vehicle 10; assigning vehicle 10 to
driver 2 fails. -/
theorem assign_vehicle_1to1_witness :
    assignVehicle ⟨[(1, 10)]⟩ 2 10 = .error .VehicleAlreadyAssigned
    ∧ (∀ (d w : Nat) (st2 : FleetState), FleetWF ⟨[(1, 10)]⟩ →
        assignVehicle ⟨[(1, 10)]⟩ d w = .ok st2 → FleetWF st2) :=
  assign_vehicle_1to1 ⟨[(1, 10)]⟩ 1 2 10 (by decide) (by decide)

/-! ## Monetary amounts (models.py `Transaction`, rideExtra_schema.py) -/

/-- A JSON scalar as it appears in a serialized response: a number (modelled
as an exact rational), a string, or null. -/
inductive Json where
  | num : ℚ → Json
  | str : String → Json
  | nul : Json
deriving DecidableEq, Repr

/-- A row of the `transactions` table (models.py lines 425-446). The `amount`
column is declared `Float`; its numeric value is modelled exactly. -/
structure Transaction where
  id : Nat
  user_id : Nat
  ride_id : Option Nat
  amount : ℚ
  type : String
  currency : String
  created_at : String
deriving DecidableEq, Repr

def optNum : Option Nat → Json
  | some n => .num n
  | none => .nul

/-- models.py `Transaction.serialize`: every field is emitted verbatim — the
amount is passed through as the raw number, with no quantization and no string
formatting. -/
def Transaction.serialize (t : Transaction) : List (String × Json) :=
  [("id", .num t.id), ("user_id", .num t.user_id),
   ("ride_id", optNum t.ride_id), ("amount", .num t.amount),
   ("type", .str t.type), ("currency", .str t.currency),
   ("created_at", .str t.created_at)]

/-- Field access in a serialized JSON object. -/
def lookupJson (l : List (String × Json)) (k : String) : Option Json :=
  (l.find? (fun kv => kv.1 == k)).map Prod.snd

/-- Python `decimal` `ROUND_HALF_UP` quantization to 2 places, as an integer
number of cents: ties round away from zero. -/
def roundHalfUp2 (q : ℚ) : ℤ :=
  if 0 ≤ q then ⌊q * 100 + 1 / 2⌋ else -⌊(-q) * 100 + 1 / 2⌋

def pad2 (n : Nat) : String :=
  if n < 10 then "0" ++ toString n else toString n

/-- Rendering a quantized amount as a fixed 2-decimal-place string, as
marshmallow's `fields.Decimal(as_string=True, places=2)` serializes it. -/
def decimalString2 (q : ℚ) : String :=
  (if roundHalfUp2 q < 0 then "-" else "")
    ++ toString ((roundHalfUp2 q).natAbs / 100) ++ "."
    ++ pad2 ((roundHalfUp2 q).natAbs % 100)

/-- Numeric value of a digit string, most significant first. -/
def digitsVal (cs : List Char) : Nat :=
  cs.foldl (fun n c => 10 * n + (c.toNat - 48)) 0

/-- Parse an unsigned plain decimal literal `digits[.digits]`. -/
def parseUnsigned (cs : List Char) : Option ℚ :=
  match cs.splitOn '.' with
  | [ip] =>
      if !ip.isEmpty && ip.all Char.isDigit then some (digitsVal ip) else none
  | [ip, fp] =>
      if (!ip.isEmpty || !fp.isEmpty) && ip.all Char.isDigit
          && fp.all Char.isDigit then
        some ((digitsVal ip : ℚ) + (digitsVal fp : ℚ) / ((10 : ℚ) ^ fp.length))
      else none
  | _ => none

/-- Model of Python `decimal.Decimal(str)` restricted to the plain
`[sign]digits[.digits]` literals the schema feeds it: the exact rational value
of the literal. -/
def parseDecimal (s : String) : Option ℚ :=
  match s.toList with
  | '-' :: rest => (parseUnsigned rest).map (fun q => -q)
  | '+' :: rest => parseUnsigned rest
  | cs => parseUnsigned cs

/-- Does `needle` begin the given list? -/
def startsWithChars : List Char → List Char → Bool
  | [], _ => true
  | _ :: _, [] => false
  | a :: as, b :: bs => a == b && startsWithChars as bs

/-- Left-to-right non-overlapping removal of every occurrence of `needle`,
the semantics of Python `str.replace(needle, "")`, with explicit fuel to keep
the recursion structural. -/
def deleteSubFuel (needle : List Char) : Nat → List Char → List Char
  | 0, _ => []
  | _ + 1, [] => []
  | fuel + 1, c :: rest =>
      if 1 ≤ needle.length && startsWithChars needle (c :: rest) then
        deleteSubFuel needle fuel (List.drop (needle.length - 1) rest)
      else
        c :: deleteSubFuel needle fuel rest

def deleteSub (needle hay : List Char) : List Char :=
  deleteSubFuel needle hay.length hay

/-- Python `str.replace(",", ".")` on a single character. -/
def commaToDot (c : Char) : Char := if c = ',' then '.' else c

/-- rideExtra_schema.py `normalize`, price leg (lines 47-57): strip, remove
the currency markers "€", "$", "USD", "EUR", remove spaces, then turn every
comma into a dot. -/
def normalizePrice (s : String) : String :=
  String.mk ((deleteSub [' ']
      (deleteSub ['E', 'U', 'R']
        (deleteSub ['U', 'S', 'D']
          (deleteSub ['$']
            (deleteSub ['€'] (stripChars s.toList)))))).map commaToDot)

/-- The `price` value found in the incoming JSON dict: a string, a number, or
some other JSON value. -/
inductive PriceInput where
  | str : String → PriceInput
  | num : ℚ → PriceInput
  | other : PriceInput
deriving DecidableEq, Repr

/-- rideExtra_schema.py `normalize` on the price field: only string values are
rewritten; anything else passes through unchanged. -/
def normalize (p : PriceInput) : PriceInput :=
  match p with
  | .str s => .str (normalizePrice s)
  | x => x

/-- Loading the `price` field: pre_load normalization, `Decimal` parsing,
`places=2` `ROUND_HALF_UP` quantization, then the `Range(min=0)` validator. -/
def ride_extra_load_price (p : PriceInput) : Option ℚ :=
  match normalize p with
  | .str s =>
      match parseDecimal s with
      | some q =>
          if 0 ≤ (roundHalfUp2 q : ℚ) / 100 then some ((roundHalfUp2 q : ℚ) / 100)
          else none
      | none => none
  | .num q =>
      if 0 ≤ (roundHalfUp2 q : ℚ) / 100 then some ((roundHalfUp2 q : ℚ) / 100)
      else none
  | .other => none

/-- Dumping the `price` field (`as_string=True, places=2, ROUND_HALF_UP`). -/
def ride_extra_dump_price (q : ℚ) : String := decimalString2 q

/-- A character never survives the removal of its own singleton needle. -/
theorem deleteSubFuel_single_not_mem (a : Char) :
    ∀ (fuel : Nat) (l : List Char), a ∉ deleteSubFuel [a] fuel l := by
  intro fuel
  induction fuel with
  | zero =>
      intro l
      cases l <;> simp [deleteSubFuel]
  | succ fuel ih =>
      intro l
      cases l with
      | nil => simp [deleteSubFuel]
      | cons c rest =>
          rw [deleteSubFuel]
          by_cases hc : (1 ≤ ([a] : List Char).length
              && startsWithChars [a] (c :: rest)) = true
          · rw [if_pos hc]
            exact ih _
          · rw [if_neg hc]
            intro hmem
            rcases List.mem_cons.mp hmem with rfl | hmem2
            · apply hc
              simp [startsWithChars]
            · exact ih rest hmem2

/-- A character surviving the removal of a singleton needle is not that
needle. -/
theorem mem_deleteSub_single (a c : Char) (l : List Char)
    (h : c ∈ deleteSub [a] l) : c ≠ a := by
  intro hca
  subst hca
  exact deleteSubFuel_single_not_mem c l.length l h

/-! ### Claim C10 -/

/-- C10: the pre-load price normalization turns the string "€ 12,34" into
"12.34", which parses to the exact decimal 12.34 = 617/50; in general the
normalized string contains no comma and no space; and non-string price inputs
pass through the pre_load step unchanged. -/
theorem ride_extra_price_normalization :
    normalize (.str "€ 12,34") = .str "12.34"
    ∧ parseDecimal "12.34" = some (617 / 50 : ℚ)
    ∧ (∀ s : String,
        ((normalizePrice s).toList.all (fun c => c != ',' && c != ' ')) = true)
    ∧ (∀ q : ℚ, normalize (.num q) = .num q)
    ∧ normalize .other = .other := by
  refine ⟨by rfl, ?_, ?_, fun q => rfl, rfl⟩
  · show some ((12 : ℚ) + (34 : ℚ) / ((10 : ℚ) ^ 2)) = some (617 / 50 : ℚ)
    norm_num
  · intro s
    have hshape : (normalizePrice s).toList
        = ((deleteSub [' ']
            (deleteSub ['E', 'U', 'R']
              (deleteSub ['U', 'S', 'D']
                (deleteSub ['$']
                  (deleteSub ['€'] (stripChars s.toList)))))).map commaToDot) := rfl
    rw [hshape, List.all_eq_true]
    intro c hc
    rcases List.mem_map.mp hc with ⟨d, hd, rfl⟩
    have hdns : d ≠ ' ' := mem_deleteSub_single ' ' d _ hd
    rw [Bool.and_eq_true, bne_iff_ne, bne_iff_ne]
    unfold commaToDot
    by_cases hdc : d = ','
    · rw [if_pos hdc]
      exact ⟨by decide, by decide⟩
    · rw [if_neg hdc]
      exact ⟨hdc, hdns⟩

/-! ### Claim C7 -/

def tx19999 : Transaction :=
  { id := 1, user_id := 1, ride_id := none, amount := 19999 / 1000,
    type := "charge", currency := "USD", created_at := "2024-01-01T00:00:00" }

/-- C7 counterexample: the `Transaction` row with amount 19.999 serializes its
amount as the raw number 19.999 — not as the string "20.00" the claim's
2-decimal round-half-up quantization requires (the `amount` column is a
`Float`, and `serialize` applies no quantization and no string formatting). -/
theorem transaction_amount_raw :
    lookupJson tx19999.serialize "amount" = some (.num (19999 / 1000 : ℚ))
    ∧ ride_extra_dump_price (19999 / 1000 : ℚ) = "20.00"
    ∧ decide (lookupJson tx19999.serialize "amount"
        = some (.str "20.00")) = false := by
  have hfloor : roundHalfUp2 (19999 / 1000 : ℚ) = 2000 := by
    unfold roundHalfUp2
    rw [if_pos (by norm_num)]
    norm_num
  refine ⟨by rfl, ?_, ?_⟩
  · unfold ride_extra_dump_price decimalString2
    rw [hfloor]
    rfl
  · rw [decide_eq_false_iff_not]
    rw [show lookupJson tx19999.serialize "amount"
        = some (.num (19999 / 1000 : ℚ)) from rfl]
    intro hcontra
    exact Json.noConfusion (Option.some.inj hcontra)

/-- C7 amended: ride-extra prices go through the marshmallow `Decimal` field —
"19.999" loads as the exact decimal 20 after 2-place ROUND_HALF_UP
quantization and dumps as the fixed 2-decimal string "20.00" — but transaction
amounts are stored in a `Float` column and serialized as raw unquantized
numbers, never as 2-decimal strings. -/
theorem money_amount_serialization :
    ride_extra_load_price (.str "19.999") = some 20
    ∧ ride_extra_dump_price 20 = "20.00"
    ∧ (∀ t : Transaction, lookupJson t.serialize "amount" = some (.num t.amount)) := by
  have hfloor : roundHalfUp2 (19999 / 1000 : ℚ) = 2000 := by
    unfold roundHalfUp2
    rw [if_pos (by norm_num)]
    norm_num
  have hfloor20 : roundHalfUp2 (20 : ℚ) = 2000 := by
    unfold roundHalfUp2
    rw [if_pos (by norm_num)]
    norm_num
  refine ⟨?_, ?_, fun t => rfl⟩
  · have hparse : parseDecimal "19.999"
        = some ((19 : ℚ) + (999 : ℚ) / ((10 : ℚ) ^ 3)) := rfl
    have hval : ((19 : ℚ) + (999 : ℚ) / ((10 : ℚ) ^ 3)) = 19999 / 1000 := by
      norm_num
    show (match parseDecimal "19.999" with
      | some q =>
          if 0 ≤ (roundHalfUp2 q : ℚ) / 100 then some ((roundHalfUp2 q : ℚ) / 100)
          else none
      | none => none) = some 20
    rw [hparse]
    simp only [hval, hfloor]
    rw [if_pos (by norm_num)]
    norm_num
  · unfold ride_extra_dump_price decimalString2
    rw [hfloor20]
    rfl

end Uber2
